import Mathlib

/-!
Verification development for the pg-mcp repository (PostgreSQL MCP server).

The Python sources under `app/` are embedded shallowly:

* `app/postgres_service.py` — class `PostgreSQLService`: the connection-pool
  manager and query/introspection functions become pure Lean functions over an
  explicit service state (`SvcState`) together with an oracle (`DbWorld`) that
  fixes the behaviour of the external database for each round trip.  Every
  database interaction additionally appends a `DbEvent` to an event trace, so
  that "the database was (not) contacted" is a provable statement.
* `app/mcp.py` — `get_postgres_service`, class `PostgreSQLMCPServer`
  (`handle_tools_call`, `dispatch_request`, ...) and `process_jsonrpc_request`
  become functions threading a `GlobalState`.
* Python exceptions are modelled with `Except`; the two exception categories
  that matter to the dispatcher (`ValueError` vs. everything else) are the two
  constructors of `PyExc`.
* `app/json_rpc.py` is imported by `app/mcp.py` but is not part of the source
  tree; the envelope model and the response constructors are modelled from the
  spec (sections 3 and 6) and are marked as such below.
-/

namespace PgMcp

/-- JSON scalar values, used for JSON-RPC request identifiers.  The claim about
identifier echoing quantifies over "type and value", which equality of this
inductive captures. -/
inductive JVal where
  | null
  | bool (b : Bool)
  | num (n : Int)
  | str (s : String)
deriving DecidableEq, Repr

/-- Database cell values as delivered by the driver (asyncpg).  Temporal values
(`datetime.datetime` / `datetime.date`) carry the text `isoformat()` would
produce for them, so that serialisation can be stated without a calendar
model. -/
inductive PgValue where
  | vNull
  | vBool (b : Bool)
  | vInt (n : Int)
  | vStr (s : String)
  | vDate (iso : String)
  | vDatetime (iso : String)
deriving DecidableEq, Repr

/-- A result row: ordered mapping from column name to value
(asyncpg `Record.items()`). -/
abbrev Row := List (String × PgValue)

/-- Helper for `pySplitWs`: walks the character list, `acc` holding the
current token reversed. -/
def pySplitWsAux : List Char → List Char → List String
  | [], acc => if acc.isEmpty then [] else [String.mk acc.reverse]
  | c :: cs, acc =>
    if c.isWhitespace then
      if acc.isEmpty then pySplitWsAux cs [] else String.mk acc.reverse :: pySplitWsAux cs []
    else
      pySplitWsAux cs (c :: acc)

/-- Python `str.split()` with no separator: split on whitespace runs and drop
empty pieces. -/
def pySplitWs (s : String) : List String :=
  pySplitWsAux s.data []

/-- Python `str.strip()`: drop leading and trailing whitespace. -/
def pyStrip (s : String) : String :=
  String.mk (((s.data.dropWhile Char.isWhitespace).reverse.dropWhile Char.isWhitespace).reverse)

/-- Python `str.upper()` (adequate for the ASCII SQL keywords being
classified). -/
def pyUpper (s : String) : String :=
  String.mk (s.data.map Char.toUpper)

/-- Is the value temporal (an instance of `datetime.datetime` or
`datetime.date`)? -/
def is_temporal : PgValue → Bool
  | .vDate _ => true
  | .vDatetime _ => true
  | _ => false

/-- The per-cell conversion in `PostgreSQLService.execute_query`
(postgres_service.py lines 150-153): a temporal value becomes its
`isoformat()` string, every other value passes through natively. -/
def engine_cell : PgValue → PgValue
  | .vDate iso => .vStr iso
  | .vDatetime iso => .vStr iso
  | v => v

/-- The per-cell conversion repeated downstream in `handle_tools_call`
(mcp.py lines 253-257), textually the same check as `engine_cell`. -/
def handler_cell : PgValue → PgValue
  | .vDate iso => .vStr iso
  | .vDatetime iso => .vStr iso
  | v => v

def serialize_row (r : Row) : Row :=
  r.map (fun kv => (kv.1, engine_cell kv.2))

def serialize_rows (rows : List Row) : List Row :=
  rows.map serialize_row

def handler_row (r : Row) : Row :=
  r.map (fun kv => (kv.1, handler_cell kv.2))

/-- Configuration defaults from `app/config.py` (`POSTGRES_DB_CONFIG`). -/
def configHost : String := "localhost"

def configPort : String := "5432"

def configDb : String := "pgrag"

/-- One observable database interaction. -/
inductive DbEvent where
  | poolInit
  | acquire
  | runQuery (sql : String)
deriving DecidableEq, Repr

/-- Mutable state of the `PostgreSQLService` singleton that the claims
depend on: whether `self.connection_pool` is non-None. -/
structure SvcState where
  poolExists : Bool
deriving DecidableEq, Repr

/-- Row returned by the connection-test query
`SELECT version(), current_database(), current_user`. -/
structure ConnRow where
  version : String
  database : String
  user : String
deriving DecidableEq, Repr

/-- Row of `pg_tables` used by `get_database_schema`. -/
structure SchemaTableRow where
  schemaname : String
  tablename : String
  tableowner : String
deriving DecidableEq, Repr

/-- Root plan node of an `EXPLAIN (... FORMAT JSON)` result, with the keys
`_extract_performance_metrics` reads (each read uses `.get` with a default). -/
structure PlanNode where
  total_cost : Option Int := none
  startup_cost : Option Int := none
  actual_time : Option Int := none
  actual_rows : Option Int := none
  node_type : Option String := none
  shared_hit : Option Int := none
  shared_read : Option Int := none
  temp_read : Option Int := none
  temp_written : Option Int := none
deriving DecidableEq, Repr

/-- The JSON plan returned by the annotated EXPLAIN.  `root = none` models a
plan structure on which `plan_data[0]["Plan"]` raises (unexpected shape);
`raw` stands for the full JSON text that is passed through to the caller. -/
structure PlanData where
  root : Option PlanNode
  raw : String
deriving DecidableEq, Repr

/-- Oracle fixing the external database's answer to each round trip the
service can make.  `Except.error m` models the driver raising an exception
whose `str(e)` is `m`. -/
structure DbWorld where
  poolCreateOk : Bool
  connTestRow : Except String ConnRow
  fetchResult : String → List String → Except String (List Row)
  execResult : String → List String → Except String String
  tableLookup : String → String → Except String (Option Row)
  columnsFetch : String → String → Except String (List Row)
  indexesFetch : String → String → Except String (List Row)
  countFetch : String → String → Except String PgValue
  tablesFetch : Except String (List SchemaTableRow)
  schemaColumnsFetch : String → String → Except String (List Row)
  explainFetch : String → Except String PlanData

/-- `PostgreSQLService.initialize_pool` (postgres_service.py lines 67-80):
attempts `asyncpg.create_pool`; on success stores the pool and returns True,
on exception logs and returns False (never raises). -/
def init_pool (w : DbWorld) (st : SvcState) : Bool × SvcState × List DbEvent :=
  if w.poolCreateOk then
    (true, { poolExists := true }, [.poolInit])
  else
    (false, st, [.poolInit])

/-- The dictionary `execute_query` returns, with absent keys as `none`. -/
structure QueryResult where
  success : Bool
  query_type : Option String := none
  row_count : Option Nat := none
  data : Option (List Row) := none
  columns : Option (List String) := none
  affected_rows : Option String := none
  message : Option String := none
  error : Option String := none
  query : Option String := none
deriving DecidableEq, Repr

/-- Failure dictionary of `execute_query`: carries the error text and the
original SQL (postgres_service.py lines 129-133 and 179-183). -/
def qfail (m q : String) : QueryResult :=
  { success := false, error := some m, query := some q }

/-- Body of `execute_query` once a pool is present (postgres_service.py lines
135-175), with `ev0` the events of a preceding pool initialisation.  The
statement classifier is `query.strip().upper().split()[0]`; on a
whitespace-only query the `[0]` raises IndexError, which the enclosing
`except Exception` turns into a failure result, hence the `none` branch. -/
def run_query_conn (w : DbWorld) (st : SvcState) (query : String)
    (params : List String) (ev0 : List DbEvent) :
    QueryResult × SvcState × List DbEvent :=
  let ev := ev0 ++ [DbEvent.acquire]
  match (pySplitWs (pyUpper (pyStrip query))).head? with
  | none => (qfail "list index out of range" query, st, ev)
  | some qt =>
    if qt = "SELECT" then
      match w.fetchResult query params with
      | .error m => (qfail m query, st, ev ++ [DbEvent.runQuery query])
      | .ok rows =>
        ({ success := true, query_type := some "SELECT",
           row_count := some (serialize_rows rows).length,
           data := some (serialize_rows rows),
           columns := some (match rows with | [] => [] | r :: _ => r.map (·.1)) },
         st, ev ++ [DbEvent.runQuery query])
    else
      match w.execResult query params with
      | .error m => (qfail m query, st, ev ++ [DbEvent.runQuery query])
      | .ok tag =>
        if tag = "" then
          ({ success := true, query_type := some qt, affected_rows := some "0",
             message := some ("Query executed successfully: " ++ tag) },
           st, ev ++ [DbEvent.runQuery query])
        else
          match (pySplitWs tag).getLast? with
          | some tok =>
            ({ success := true, query_type := some qt, affected_rows := some tok,
               message := some ("Query executed successfully: " ++ tag) },
             st, ev ++ [DbEvent.runQuery query])
          | none => (qfail "list index out of range" query, st, ev ++ [DbEvent.runQuery query])

/-- `PostgreSQLService.execute_query` (postgres_service.py lines 122-183):
lazily initialises the pool (returning a failure dictionary when that fails),
then runs the query; every exception inside the `try` is caught and mapped to
a failure dictionary carrying `str(e)` and the original SQL. -/
def execute_query (w : DbWorld) (st : SvcState) (query : String)
    (params : List String) : QueryResult × SvcState × List DbEvent :=
  if st.poolExists then
    run_query_conn w st query params []
  else
    let r := init_pool w st
    if r.1 then
      run_query_conn w r.2.1 query params r.2.2
    else
      (qfail "Failed to initialize connection pool" query, r.2.1, r.2.2)

/-- Message of Python's AttributeError when `acquire` is called on a `None`
pool (the actual wording names NoneType and the attribute). -/
def noneTypeAcquireMsg : String := "NoneType object has no attribute acquire"

/-- Dictionary returned by `test_connection`. -/
structure TestResult where
  status : String
  version : Option String := none
  database : Option String := none
  user : Option String := none
  error : Option String := none
deriving DecidableEq, Repr

/-- SQL of the connection-test round trip (postgres_service.py line 101). -/
def versionSql : String := "SELECT version(), current_database(), current_user"

/-- Connected part of `test_connection` (postgres_service.py lines 100-114):
acquire a connection, run the version query, build the status dictionary. -/
def test_connection_conn (w : DbWorld) (st : SvcState) (ev0 : List DbEvent) :
    TestResult × SvcState × List DbEvent :=
  let ev := ev0 ++ [DbEvent.acquire, DbEvent.runQuery versionSql]
  match w.connTestRow with
  | .error m => ({ status := "failed", error := some m }, st, ev)
  | .ok row =>
    ({ status := "connected", version := some row.version,
       database := some row.database, user := some row.user }, st, ev)

/-- `PostgreSQLService.test_connection` (postgres_service.py lines 88-120):
lazily initialises the pool (failure yields a failed status), then runs the
version query; any exception becomes a failed status carrying `str(e)`. -/
def test_connection (w : DbWorld) (st : SvcState) :
    TestResult × SvcState × List DbEvent :=
  if st.poolExists then
    test_connection_conn w st []
  else
    let r := init_pool w st
    if r.1 then
      test_connection_conn w r.2.1 r.2.2
    else
      ({ status := "failed", error := some "Failed to initialize connection pool" },
       r.2.1, r.2.2)

/-- Dictionary returned by `get_table_info`. -/
structure TableInfoResult where
  success : Bool
  table_info : Option Row := none
  columns : Option (List Row) := none
  indexes : Option (List Row) := none
  row_count : Option PgValue := none
  error : Option String := none
deriving DecidableEq, Repr

def tfail (m : String) : TableInfoResult :=
  { success := false, error := some m }

/-- The `pg_tables` lookup of `get_table_info` (postgres_service.py lines
256-267), condensed to one line. -/
def tableInfoSql : String :=
  "SELECT schemaname, tablename, tableowner, tablespace, hasindexes, hasrules, hastriggers FROM pg_tables WHERE schemaname = $1 AND tablename = $2"

/-- The column query of `get_table_info` (lines 277-289). -/
def columnsInfoSql : String :=
  "SELECT column_name, data_type, is_nullable, column_default, character_maximum_length, numeric_precision, numeric_scale FROM information_schema.columns WHERE table_schema = $1 AND table_name = $2 ORDER BY ordinal_position"

/-- The index query of `get_table_info` (lines 293-299). -/
def indexesSql : String :=
  "SELECT indexname, indexdef FROM pg_indexes WHERE schemaname = $1 AND tablename = $2"

/-- The row-count query of `get_table_info` (line 303). -/
def countSql (schema table_name : String) : String :=
  "SELECT COUNT(*) as row_count FROM " ++ schema ++ "." ++ table_name

/-- `PostgreSQLService.get_table_info` (postgres_service.py lines 248-319).
The pool initialisation result is ignored by the source (line 252); if the
pool is still absent, `self.connection_pool.acquire()` raises AttributeError,
caught by the enclosing `except`.  A `None` result of the `pg_tables` lookup
(`.ok none` here) yields the not-found failure before the column, index and
count queries run.  `w.countFetch` models
`conn.fetchrow(count_query)["row_count"]` as one oracle call. -/
def get_table_info (w : DbWorld) (st : SvcState)
    (table_name : String) (schema : String) :
    TableInfoResult × SvcState × List DbEvent :=
  let p := if st.poolExists then (st, ([] : List DbEvent))
           else ((init_pool w st).2.1, (init_pool w st).2.2)
  let st1 := p.1
  let ev1 := p.2
  if !st1.poolExists then
    (tfail noneTypeAcquireMsg, st1, ev1)
  else
    let ev := ev1 ++ [DbEvent.acquire, DbEvent.runQuery tableInfoSql]
    match w.tableLookup schema table_name with
    | .error m => (tfail m, st1, ev)
    | .ok none =>
      (tfail ("Table " ++ schema ++ "." ++ table_name ++ " not found"), st1, ev)
    | .ok (some ti) =>
      let ev2 := ev ++ [DbEvent.runQuery columnsInfoSql]
      match w.columnsFetch schema table_name with
      | .error m => (tfail m, st1, ev2)
      | .ok cols =>
        let ev3 := ev2 ++ [DbEvent.runQuery indexesSql]
        match w.indexesFetch schema table_name with
        | .error m => (tfail m, st1, ev3)
        | .ok idxs =>
          let ev4 := ev3 ++ [DbEvent.runQuery (countSql schema table_name)]
          match w.countFetch schema table_name with
          | .error m => (tfail m, st1, ev4)
          | .ok cnt =>
            ({ success := true, table_info := some ti, columns := some cols,
               indexes := some idxs, row_count := some cnt }, st1, ev4)

/-- Entry of the schema report for one table. -/
structure SchemaTableEntry where
  schema : String
  table : String
  owner : String
  columns : List Row
deriving DecidableEq, Repr

/-- Dictionary returned by `get_database_schema`. -/
structure SchemaResult where
  success : Bool
  database : Option String := none
  schema_count : Option Nat := none
  table_count : Option Nat := none
  tables : Option (List (String × SchemaTableEntry)) := none
  error : Option String := none
deriving DecidableEq, Repr

/-- The `pg_tables` listing of `get_database_schema` (lines 193-201). -/
def tablesSql : String :=
  "SELECT schemaname, tablename, tableowner FROM pg_tables WHERE schemaname NOT IN (information_schema, pg_catalog) ORDER BY schemaname, tablename"

/-- The per-table column query of `get_database_schema` (lines 211-221). -/
def schemaColumnsSql : String :=
  "SELECT column_name, data_type, is_nullable, column_default, character_maximum_length FROM information_schema.columns WHERE table_schema = $1 AND table_name = $2 ORDER BY ordinal_position"

/-- The per-table loop of `get_database_schema` (lines 207-231): fetches the
columns of each listed table in order; the first raising fetch aborts the
whole loop (the exception propagates to the enclosing `except`). -/
def fetchColumnsFor (w : DbWorld) :
    List SchemaTableRow →
    Except String (List (String × SchemaTableEntry)) × List DbEvent
  | [] => (.ok [], [])
  | t :: rest =>
    match w.schemaColumnsFetch t.schemaname t.tablename with
    | .error m => (.error m, [DbEvent.runQuery schemaColumnsSql])
    | .ok cols =>
      let r := fetchColumnsFor w rest
      match r.1 with
      | .error m => (.error m, DbEvent.runQuery schemaColumnsSql :: r.2)
      | .ok entries =>
        (.ok ((t.schemaname ++ "." ++ t.tablename,
               { schema := t.schemaname, table := t.tablename,
                 owner := t.tableowner, columns := cols }) :: entries),
         DbEvent.runQuery schemaColumnsSql :: r.2)

/-- `PostgreSQLService.get_database_schema` (postgres_service.py lines
185-246).  Pool initialisation result ignored (line 189, same pattern as
`get_table_info`); schema count is the number of distinct schema names. -/
def get_database_schema (w : DbWorld) (st : SvcState) :
    SchemaResult × SvcState × List DbEvent :=
  let p := if st.poolExists then (st, ([] : List DbEvent))
           else ((init_pool w st).2.1, (init_pool w st).2.2)
  let st1 := p.1
  let ev1 := p.2
  if !st1.poolExists then
    ({ success := false, error := some noneTypeAcquireMsg }, st1, ev1)
  else
    let ev := ev1 ++ [DbEvent.acquire, DbEvent.runQuery tablesSql]
    match w.tablesFetch with
    | .error m => ({ success := false, error := some m }, st1, ev)
    | .ok tables =>
      let r := fetchColumnsFor w tables
      match r.1 with
      | .error m => ({ success := false, error := some m }, st1, ev ++ r.2)
      | .ok entries =>
        ({ success := true, database := some configDb,
           schema_count := some ((tables.map (·.schemaname)).eraseDups).length,
           table_count := some tables.length,
           tables := some entries }, st1, ev ++ r.2)

/-- Fixed metric set extracted from the root plan node, with the `.get`
defaults of `_extract_performance_metrics` applied. -/
structure Metrics where
  total_cost : Int
  startup_cost : Int
  actual_time : Int
  rows : Int
  node_type : String
  shared_hit_blocks : Int
  shared_read_blocks : Int
  temp_read_blocks : Int
  temp_written_blocks : Int
deriving DecidableEq, Repr

/-- Result of `_extract_performance_metrics`: either the metrics dictionary or
a dictionary carrying only an error message (lines 365-367). -/
inductive MetricsResult where
  | metrics (m : Metrics)
  | errMetrics (msg : String)
deriving DecidableEq, Repr

/-- `PostgreSQLService._extract_performance_metrics` (lines 349-367):
`plan_data[0]["Plan"]` may raise on an unexpected shape (modelled by
`root = none`), in which case an error dictionary is returned instead. -/
def extract_performance_metrics (pd : PlanData) : MetricsResult :=
  match pd.root with
  | none => .errMetrics "list index out of range"
  | some plan =>
    .metrics
      { total_cost := plan.total_cost.getD 0
        startup_cost := plan.startup_cost.getD 0
        actual_time := plan.actual_time.getD 0
        rows := plan.actual_rows.getD 0
        node_type := plan.node_type.getD "Unknown"
        shared_hit_blocks := plan.shared_hit.getD 0
        shared_read_blocks := plan.shared_read.getD 0
        temp_read_blocks := plan.temp_read.getD 0
        temp_written_blocks := plan.temp_written.getD 0 }

/-- Dictionary returned by `analyze_query_performance`. -/
structure AnalysisResult where
  success : Bool
  query : Option String := none
  execution_plan : Option PlanData := none
  analysis : Option MetricsResult := none
  error : Option String := none
deriving DecidableEq, Repr

/-- `PostgreSQLService.analyze_query_performance` (lines 321-347).  The
oracle's `explainFetch` models `conn.fetchrow(explain_query)[0]` as one call;
a raise anywhere in the `try` becomes a failure carrying the query. -/
def analyze_query_performance (w : DbWorld) (st : SvcState) (query : String) :
    AnalysisResult × SvcState × List DbEvent :=
  let p := if st.poolExists then (st, ([] : List DbEvent))
           else ((init_pool w st).2.1, (init_pool w st).2.2)
  let st1 := p.1
  let ev1 := p.2
  if !st1.poolExists then
    ({ success := false, error := some noneTypeAcquireMsg, query := some query },
     st1, ev1)
  else
    let explainSql := "EXPLAIN (ANALYZE, BUFFERS, FORMAT JSON) " ++ query
    let ev := ev1 ++ [DbEvent.acquire, DbEvent.runQuery explainSql]
    match w.explainFetch query with
    | .error m =>
      ({ success := false, error := some m, query := some query }, st1, ev)
    | .ok pd =>
      ({ success := true, query := some query, execution_plan := some pd,
         analysis := some (extract_performance_metrics pd) }, st1, ev)

/-! ## The MCP dispatch layer (`app/mcp.py`) -/

/-- The module-level `current_service` global of mcp.py together with the
service singleton's state. -/
structure GlobalState where
  currentService : Bool
  svc : SvcState
deriving DecidableEq, Repr

/-- `get_postgres_service` (mcp.py lines 26-40): if the global is unset, call
`initialize_pool` (return value unused by the source) and `test_connection`;
a non-connected status raises a generic `Exception` whose message embeds the
diagnostic; otherwise the global is set.  Note there is no lock around the
`current_service is None` check. -/
def get_postgres_service (w : DbWorld) (g : GlobalState) :
    Except String Unit × GlobalState × List DbEvent :=
  if g.currentService then
    (.ok (), g, [])
  else
    let r := init_pool w g.svc
    let t := test_connection w r.2.1
    if t.1.status = "connected" then
      (.ok (), { currentService := true, svc := t.2.1 }, r.2.2 ++ t.2.2)
    else
      (.error ("PostgreSQL connection failed: " ++ (t.1.error.getD "Unknown error")),
       { g with svc := t.2.1 }, r.2.2 ++ t.2.2)

/-- The two exception categories `process_jsonrpc_request` distinguishes:
`ValueError` (and its subclasses) versus every other `Exception`. -/
inductive PyExc where
  | valueError (msg : String)
  | otherError (msg : String)
deriving DecidableEq, Repr

/-- The `arguments` object of a `tools/call`, with the keys the six tools
read; an absent key is `none` (Python `.get` with a default). -/
structure ToolArguments where
  message : Option String := none
  query : Option String := none
  params : Option (List String) := none
  table_name : Option String := none
  schema : Option String := none
deriving DecidableEq, Repr

/-- The `params` object of a `tools/call` request. -/
structure ToolCallParams where
  name : Option String := none
  arguments : ToolArguments := {}
deriving DecidableEq, Repr

/-- One entry of a tool result's `content` list. -/
structure ContentItem where
  type : String
  text : String
deriving DecidableEq, Repr

def textItem (s : String) : ContentItem :=
  { type := "text", text := s }

/-- A tool handler's return dictionary. -/
structure ToolResult where
  content : List ContentItem
  isError : Bool
deriving DecidableEq, Repr

/-- `valid_postgres_tools` (mcp.py lines 186-192). -/
def valid_postgres_tools : List String :=
  ["postgres_connection_test", "postgres_query", "postgres_schema",
   "postgres_table_info", "postgres_query_analyze"]

def toolNameMem : Option String → Bool
  | some n => valid_postgres_tools.contains n
  | none => false

/-- Rendering of `tool_name` inside the f-string `"Unknown tool: ..."`;
a missing name prints as Python `None`. -/
def displayToolName : Option String → String
  | some n => n
  | none => "None"

/-- Message of Python's AttributeError when `.get` is called on `None`
(`params.get("name")` with `params = None`, mcp.py line 168; the actual
wording names NoneType and the attribute). -/
def noneTypeGetMsg : String := "NoneType object has no attribute get"

/-- Python `str()` of a cell value, for f-string interpolation. -/
def pgStr : PgValue → String
  | .vNull => "None"
  | .vBool true => "True"
  | .vBool false => "False"
  | .vInt n => toString n
  | .vStr s => s
  | .vDate iso => iso
  | .vDatetime iso => iso

/-- Python truthiness of a cell value. -/
def pgTruthy : PgValue → Bool
  | .vNull => false
  | .vBool b => b
  | .vInt n => n != 0
  | .vStr s => s != ""
  | .vDate _ => true
  | .vDatetime _ => true

/-- Dictionary lookup on a row. -/
def rowGet (r : Row) (k : String) : Option PgValue :=
  (r.find? (fun kv => kv.1 = k)).map (·.2)

/-- JSON rendering of one cell, as `json.dumps` would produce (string
escaping not modelled).  `json.dumps` would raise TypeError on a temporal
value; that case is unreachable for engine output (see the once-only
serialisation theorem), and rendering the ISO text keeps this total. -/
def jsonValStr : PgValue → String
  | .vNull => "null"
  | .vBool true => "true"
  | .vBool false => "false"
  | .vInt n => toString n
  | .vStr s => "\"" ++ s ++ "\""
  | .vDate iso => "\"" ++ iso ++ "\""
  | .vDatetime iso => "\"" ++ iso ++ "\""

/-- Models `json.dumps(row, indent=2, ensure_ascii=False)` on a row dict. -/
def jsonDumpsRow (r : Row) : String :=
  if r.isEmpty then "\x7b\x7d"
  else
    "\x7b\n"
    ++ String.intercalate ",\n"
        (r.map (fun kv => "  \"" ++ kv.1 ++ "\": " ++ jsonValStr kv.2))
    ++ "\n\x7d"

/-- The row display loop of the `postgres_query` branch (mcp.py lines
248-261): first 10 rows, each passed through the downstream temporal
conversion (`handler_row`), plus the more-rows note. -/
def rowsBlock (data : List Row) : String :=
  ((data.take 10).enum.foldl
    (fun acc it =>
      acc ++ "Row " ++ toString (it.1 + 1) ++ ": "
        ++ jsonDumpsRow (handler_row it.2) ++ "\n") "")
  ++ (if data.length > 10 then
        "... and " ++ toString (data.length - 10) ++ " more rows"
      else "")

/-- Output text of the `postgres_query` branch (mcp.py lines 240-268). -/
def formatQueryOutput (res : QueryResult) : String :=
  if res.success then
    if res.query_type = some "SELECT" then
      "Query executed successfully!\n"
      ++ "Returned " ++ toString (res.row_count.getD 0) ++ " rows\n"
      ++ (if !(res.columns.getD []).isEmpty then
            "Columns: " ++ String.intercalate ", " (res.columns.getD []) ++ "\n\n"
          else "")
      ++ (if !(res.data.getD []).isEmpty then rowsBlock (res.data.getD []) else "")
    else
      "Query executed successfully!\n"
      ++ "Query type: " ++ res.query_type.getD "" ++ "\n"
      ++ "Affected rows: " ++ res.affected_rows.getD "N/A" ++ "\n"
      ++ "Message: " ++ res.message.getD ""
  else
    "Query failed: " ++ res.error.getD ""

/-- Output text of the `postgres_connection_test` branch (mcp.py lines
203-211); host and port come from the configuration. -/
def formatConnTestOutput (res : TestResult) : String :=
  if res.status = "connected" then
    "✅ PostgreSQL Connection Test: SUCCESS\n\n"
    ++ "Database Version: " ++ res.version.getD "" ++ "\n"
    ++ "Current Database: " ++ res.database.getD "" ++ "\n"
    ++ "Current User: " ++ res.user.getD "" ++ "\n"
    ++ "Host: " ++ configHost ++ "\n"
    ++ "Port: " ++ configPort ++ "\n"
  else
    "❌ PostgreSQL Connection Test: FAILED\n\nError: " ++ res.error.getD ""

/-- Per-table block of the `postgres_schema` output (mcp.py lines 288-296). -/
def schemaTableBlock (entry : String × SchemaTableEntry) : String :=
  "Table: " ++ entry.1 ++ "\n"
  ++ "  Owner: " ++ entry.2.owner ++ "\n"
  ++ "  Columns: " ++ toString entry.2.columns.length ++ "\n"
  ++ ((entry.2.columns.take 5).foldl
      (fun acc col =>
        acc ++ "    - " ++ pgStr ((rowGet col "column_name").getD .vNull)
          ++ " (" ++ pgStr ((rowGet col "data_type").getD .vNull) ++ ")\n") "")
  ++ (if entry.2.columns.length > 5 then
        "    ... and " ++ toString (entry.2.columns.length - 5) ++ " more columns\n"
      else "")
  ++ "\n"

/-- Output text of the `postgres_schema` branch (mcp.py lines 283-298). -/
def formatSchemaOutput (res : SchemaResult) : String :=
  if res.success then
    "Database Schema for: " ++ res.database.getD "" ++ "\n"
    ++ "Schemas: " ++ toString (res.schema_count.getD 0) ++ "\n"
    ++ "Tables: " ++ toString (res.table_count.getD 0) ++ "\n\n"
    ++ (res.tables.getD []).foldl (fun acc e => acc ++ schemaTableBlock e) ""
  else
    "Failed to get schema: " ++ res.error.getD ""

/-- Per-column line of the `postgres_table_info` output (mcp.py lines
340-343). -/
def tableInfoColumnLine (col : Row) : String :=
  let nullable := if rowGet col "is_nullable" = some (.vStr "YES") then "NULL" else "NOT NULL"
  let dflt := (rowGet col "column_default").getD .vNull
  let dfltTxt := if pgTruthy dflt then " DEFAULT " ++ pgStr dflt else ""
  "  - " ++ pgStr ((rowGet col "column_name").getD .vNull) ++ ": "
    ++ pgStr ((rowGet col "data_type").getD .vNull) ++ " " ++ nullable ++ dfltTxt ++ "\n"

/-- Output text of the `postgres_table_info` branch (mcp.py lines 327-351). -/
def formatTableInfoOutput (table_name schema : String) (res : TableInfoResult) : String :=
  if res.success then
    let ti := res.table_info.getD []
    "Table Information: " ++ schema ++ "." ++ table_name ++ "\n\n"
    ++ "Owner: " ++ pgStr ((rowGet ti "tableowner").getD (.vStr "N/A")) ++ "\n"
    ++ "Has Indexes: " ++ pgStr ((rowGet ti "hasindexes").getD (.vBool false)) ++ "\n"
    ++ "Has Rules: " ++ pgStr ((rowGet ti "hasrules").getD (.vBool false)) ++ "\n"
    ++ "Has Triggers: " ++ pgStr ((rowGet ti "hastriggers").getD (.vBool false)) ++ "\n"
    ++ "Row Count: " ++ pgStr (res.row_count.getD .vNull) ++ "\n\n"
    ++ "Columns:\n"
    ++ (res.columns.getD []).foldl (fun acc col => acc ++ tableInfoColumnLine col) ""
    ++ (if !(res.indexes.getD []).isEmpty then
          "\nIndexes:\n"
          ++ (res.indexes.getD []).foldl
              (fun acc idx =>
                acc ++ "  - " ++ pgStr ((rowGet idx "indexname").getD .vNull) ++ "\n") ""
        else "")
  else
    "Failed to get table info: " ++ res.error.getD ""

/-- Metric lines of the `postgres_query_analyze` output (mcp.py lines
383-389); an error-carrying metrics dictionary makes every `.get` fall back
to N/A. -/
def metricsLines : Option MetricsResult → String
  | some (.metrics m) =>
    "  - Total Cost: " ++ toString m.total_cost ++ "\n"
    ++ "  - Startup Cost: " ++ toString m.startup_cost ++ "\n"
    ++ "  - Actual Time: " ++ toString m.actual_time ++ " ms\n"
    ++ "  - Rows: " ++ toString m.rows ++ "\n"
    ++ "  - Node Type: " ++ m.node_type ++ "\n"
  | _ =>
    "  - Total Cost: N/A\n  - Startup Cost: N/A\n  - Actual Time: N/A ms\n"
    ++ "  - Rows: N/A\n  - Node Type: N/A\n"

/-- Output text of the `postgres_query_analyze` branch (mcp.py lines
379-393); the full plan is the raw JSON text passed through. -/
def formatAnalyzeOutput (res : AnalysisResult) : String :=
  if res.success then
    "Query Performance Analysis\n"
    ++ "Query: " ++ res.query.getD "" ++ "\n\n"
    ++ "Performance Metrics:\n"
    ++ metricsLines res.analysis
    ++ "\nFull Execution Plan:\n" ++ (res.execution_plan.map (·.raw)).getD ""
  else
    "Query analysis failed: " ++ res.error.getD ""

/-- `PostgreSQLMCPServer.handle_tools_call` (mcp.py lines 166-418).
The `echo` branch never touches the service; an unknown tool name raises
`ValueError` (re-raised past the handler by the `except ValueError` arm,
line 405-407) before the service is obtained; the generic `Exception` raised
by `get_postgres_service` on a failed connection is caught by the
`except Exception` arm (lines 408-418) and becomes an `isError` result.
Calling the handler with `params = None` raises AttributeError at line 168,
outside the `try`. -/
def handle_tools_call (w : DbWorld) (g : GlobalState) (params : Option ToolCallParams) :
    Except PyExc ToolResult × GlobalState × List DbEvent :=
  match params with
  | none => (.error (.otherError noneTypeGetMsg), g, [])
  | some p =>
    let args := p.arguments
    if p.name = some "echo" then
      (.ok { content := [textItem ("Echo: " ++ (args.message.getD ""))], isError := false },
       g, [])
    else if !toolNameMem p.name then
      (.error (.valueError ("Unknown tool: " ++ displayToolName p.name)), g, [])
    else
      let s := get_postgres_service w g
      match s.1 with
      | .error m =>
        (.ok { content := [textItem ("Tool execution error: " ++ m)], isError := true },
         s.2.1, s.2.2)
      | .ok _ =>
        let g1 := s.2.1
        let ev1 := s.2.2
        if p.name = some "postgres_connection_test" then
          let t := test_connection w g1.svc
          (.ok { content := [textItem (formatConnTestOutput t.1)],
                 isError := t.1.status != "connected" },
           { g1 with svc := t.2.1 }, ev1 ++ t.2.2)
        else if p.name = some "postgres_query" then
          let q := args.query.getD ""
          let ps := args.params.getD []
          if pyStrip q = "" then
            (.ok { content := [textItem "Error: Query cannot be empty"], isError := true },
             g1, ev1)
          else
            let r := execute_query w g1.svc q ps
            (.ok { content := [textItem (formatQueryOutput r.1)], isError := !r.1.success },
             { g1 with svc := r.2.1 }, ev1 ++ r.2.2)
        else if p.name = some "postgres_schema" then
          let r := get_database_schema w g1.svc
          (.ok { content := [textItem (formatSchemaOutput r.1)], isError := !r.1.success },
           { g1 with svc := r.2.1 }, ev1 ++ r.2.2)
        else if p.name = some "postgres_table_info" then
          let tbl := args.table_name.getD ""
          let sch := args.schema.getD "public"
          if tbl = "" then
            (.ok { content := [textItem "Error: table_name is required"], isError := true },
             g1, ev1)
          else
            let r := get_table_info w g1.svc tbl sch
            (.ok { content := [textItem (formatTableInfoOutput tbl sch r.1)],
                   isError := !r.1.success },
             { g1 with svc := r.2.1 }, ev1 ++ r.2.2)
        else if p.name = some "postgres_query_analyze" then
          let q := args.query.getD ""
          if pyStrip q = "" then
            (.ok { content := [textItem "Error: Query cannot be empty"], isError := true },
             g1, ev1)
          else
            let r := analyze_query_performance w g1.svc q
            (.ok { content := [textItem (formatAnalyzeOutput r.1)], isError := !r.1.success },
             { g1 with svc := r.2.1 }, ev1 ++ r.2.2)
        else
          -- unreachable: the name is a member of valid_postgres_tools but the
          -- elif chain covers all five members; Python would return None here
          (.ok { content := [], isError := false }, g1, ev1)

/-- Results of the four RPC methods.  The initialize and tools/list payloads
carry the identifying constants; their full nested shape is not the subject
of any claim. -/
inductive RpcResult where
  | initResult (protocol_version server_name server_version : String)
  | toolsList (names : List String)
  | toolResult (r : ToolResult)
  | resourcesList
deriving DecidableEq, Repr

/-- Names of the declared tools (mcp.py lines 75-164). -/
def toolNames : List String :=
  ["echo", "postgres_connection_test", "postgres_query", "postgres_schema",
   "postgres_table_info", "postgres_query_analyze"]

/-- `PostgreSQLMCPServer.handle_initialize` (mcp.py lines 50-73): warm-up via
`get_postgres_service` with any exception swallowed, then the fixed payload. -/
def handle_init (w : DbWorld) (g : GlobalState) :
    Except PyExc RpcResult × GlobalState × List DbEvent :=
  let s := get_postgres_service w g
  (.ok (.initResult "2024-11-05" "postgres-mcp-server" "1.0.0"), s.2.1, s.2.2)

/-- `PostgreSQLMCPServer.dispatch_request` (mcp.py lines 426-439): fixed
handler table; a miss raises `ValueError("Method not found: ...")`. -/
def dispatch_request (w : DbWorld) (g : GlobalState) (method : String)
    (params : Option ToolCallParams) :
    Except PyExc RpcResult × GlobalState × List DbEvent :=
  if method = "initialize" then
    handle_init w g
  else if method = "tools/list" then
    (.ok (.toolsList toolNames), g, [])
  else if method = "tools/call" then
    let r := handle_tools_call w g params
    (r.1.map RpcResult.toolResult, r.2.1, r.2.2)
  else if method = "resources/list" then
    (.ok .resourcesList, g, [])
  else
    (.error (.valueError ("Method not found: " ++ method)), g, [])

/-- The raw JSON body of a request, before envelope validation: each field is
present or absent.  `params`, when present, is already the typed tools/call
parameter object (the only method that reads it). -/
structure RawRequest where
  jsonrpc : Option JVal := none
  method : Option JVal := none
  params : Option ToolCallParams := none
  id : Option JVal := none
deriving DecidableEq, Repr

/-- A validated envelope. -/
structure ParsedRequest where
  method : String
  params : Option ToolCallParams := none
  id : Option JVal := none
deriving DecidableEq, Repr

/-- Modelled from the spec: `app/json_rpc.py` (class `JsonRpcRequest`) is
imported by mcp.py but is not part of the source tree.  Spec section 3/6: the
id is a string, a number, null, or absent. -/
def idShapeOk : Option JVal → Bool
  | none => true
  | some .null => true
  | some (.num _) => true
  | some (.str _) => true
  | some (.bool _) => false

/-- Modelled from the spec: `app/json_rpc.py` (class `JsonRpcRequest`) is not
part of the source tree.  Spec section 6: the envelope requires
`jsonrpc = "2.0"` and a string method; params and id are optional; a valid
envelope carries its fields through unchanged. -/
def parseEnvelope (raw : RawRequest) : Option ParsedRequest :=
  match raw.jsonrpc, raw.method with
  | some (.str v), some (.str m) =>
    if v = "2.0" then
      if idShapeOk raw.id then
        some { method := m, params := raw.params, id := raw.id }
      else none
    else none
  | _, _ => none

/-- Modelled from the spec: error code table of `app/json_rpc.py` (spec
section 6). -/
def METHOD_NOT_FOUND : Int := -32601

def INTERNAL_ERROR : Int := -32603

def PARSE_ERROR : Int := -32700

structure RpcError where
  code : Int
  message : String
deriving DecidableEq, Repr

/-- A JSON-RPC response: `jsonrpc` tag, echoed id, and exactly one of
result/error. -/
structure RpcResponse where
  jsonrpc : String
  id : Option JVal
  result : Option RpcResult := none
  error : Option RpcError := none
deriving DecidableEq, Repr

/-- Modelled from the spec: `create_success_response` of `app/json_rpc.py`
(spec section 6 success shape). -/
def create_success_response (result : RpcResult) (id : Option JVal) : RpcResponse :=
  { jsonrpc := "2.0", id := id, result := some result }

/-- Modelled from the spec: `create_error_response` of `app/json_rpc.py`
(spec section 6 error shape). -/
def create_error_response (code : Int) (message : String) (id : Option JVal) : RpcResponse :=
  { jsonrpc := "2.0", id := id, error := some { code := code, message := message } }

/-- Stand-in for the pydantic validation message on an invalid envelope. -/
def envelopeValidationMsg : String := "validation error for JsonRpcRequest"

/-- `process_jsonrpc_request` (mcp.py lines 446-478).  A `ValueError` from
dispatch becomes METHOD_NOT_FOUND carrying `str(e)`; any other exception
becomes INTERNAL_ERROR with the fixed text "Internal server error"; both
error paths take the id from `request_data.get("id")`.  An invalid envelope
raises pydantic's ValidationError, a `ValueError` subclass, hence the
METHOD_NOT_FOUND path (envelope class modelled from the spec, see
`parseEnvelope`). -/
def process_jsonrpc_request (w : DbWorld) (g : GlobalState) (raw : RawRequest) :
    RpcResponse × GlobalState × List DbEvent :=
  match parseEnvelope raw with
  | none =>
    (create_error_response METHOD_NOT_FOUND envelopeValidationMsg raw.id, g, [])
  | some req =>
    let d := dispatch_request w g req.method req.params
    match d.1 with
    | .ok result => (create_success_response result req.id, d.2.1, d.2.2)
    | .error (.valueError m) =>
      (create_error_response METHOD_NOT_FOUND m raw.id, d.2.1, d.2.2)
    | .error (.otherError _) =>
      (create_error_response INTERNAL_ERROR "Internal server error" raw.id, d.2.1, d.2.2)

/-! ## Interleaving model of concurrent first use

Two coroutines A and B both execute `get_postgres_service` (mcp.py lines
26-40) from the unset global.  Under asyncio, control can move between
coroutines at each `await`; the program points are:

* 0 — about to evaluate `current_service is None` (line 30);
* 1 — about to run `await real_postgres_service.initialize_pool()` (line 31,
  a suspension point; stepping it counts one pool-initialisation sequence);
* 2 — about to run `await real_postgres_service.test_connection()` (line 32,
  a suspension point; taken as succeeding);
* 3 — about to assign `current_service` (line 35);
* 4 — returned.

There is no lock in the source, so any interleaving of the two coroutines'
steps is a legal schedule.  The schedule exhibited in the theorem below even
lets each coroutine run uninterrupted up to its first suspension inside
`initialize_pool`, so it does not depend on any finer-grained preemption. -/

/-- Shared state of the two concurrent callers plus their program counters. -/
structure RaceState where
  currentService : Bool
  initCount : Nat
  pcA : Nat
  pcB : Nat
deriving DecidableEq, Repr

/-- One step of a single coroutine at program point `pc`: returns the new
program point, the new `current_service`, and the new initialisation count. -/
def racePcStep (pc : Nat) (cs : Bool) (ic : Nat) : Nat × Bool × Nat :=
  match pc with
  | 0 => if cs then (4, cs, ic) else (1, cs, ic)
  | 1 => (2, cs, ic + 1)
  | 2 => (3, cs, ic)
  | 3 => (4, true, ic)
  | _ => (pc, cs, ic)

/-- Step coroutine A (`true`) or B (`false`). -/
def raceStep (useA : Bool) (s : RaceState) : RaceState :=
  if useA then
    let r := racePcStep s.pcA s.currentService s.initCount
    { s with pcA := r.1, currentService := r.2.1, initCount := r.2.2 }
  else
    let r := racePcStep s.pcB s.currentService s.initCount
    { s with pcB := r.1, currentService := r.2.1, initCount := r.2.2 }

/-- Run a schedule (list of which-coroutine choices). -/
def runSched (sched : List Bool) (s : RaceState) : RaceState :=
  sched.foldl (fun st c => raceStep c st) s

/-- Both coroutines at the start, global unset, no initialisation yet. -/
def raceStart : RaceState :=
  { currentService := false, initCount := 0, pcA := 0, pcB := 0 }

/-! ## Concrete fixtures used by witnesses and counterexamples -/

/-- A database that answers every round trip successfully. -/
def okWorld : DbWorld :=
  { poolCreateOk := true
    connTestRow := .ok { version := "PostgreSQL 16.0", database := "pgrag", user := "postgres" }
    fetchResult := fun _ _ => .ok []
    execResult := fun _ _ => .ok "UPDATE 1"
    tableLookup := fun _ _ => .ok none
    columnsFetch := fun _ _ => .ok []
    indexesFetch := fun _ _ => .ok []
    countFetch := fun _ _ => .ok (.vInt 0)
    tablesFetch := .ok []
    schemaColumnsFetch := fun _ _ => .ok []
    explainFetch := fun _ => .ok { root := none, raw := "[]" } }

/-- Fresh process state: global service unset, no pool. -/
def gStart : GlobalState := { currentService := false, svc := { poolExists := false } }

/-- Warm process state: global service set, pool live. -/
def gReady : GlobalState := { currentService := true, svc := { poolExists := true } }

/-- The echo scenario request of spec section 8. -/
def echoRaw : RawRequest :=
  { jsonrpc := some (.str "2.0"), method := some (.str "tools/call"),
    params := some { name := some "echo", arguments := { message := some "hi" } },
    id := some (.num 1) }

/-- A valid envelope for `tools/call` whose params object is absent. -/
def rawNoParams : RawRequest :=
  { jsonrpc := some (.str "2.0"), method := some (.str "tools/call"),
    params := none, id := some (.num 7) }

/-- A database whose non-SELECT status tag is a single space (non-empty,
whitespace only). -/
def wsTagWorld : DbWorld := { okWorld with execResult := fun _ _ => .ok " " }

/-! ## Helper lemmas -/

theorem engine_cell_not_temporal (v : PgValue) : is_temporal (engine_cell v) = false := by
  cases v <;> rfl

theorem handler_cell_engine (v : PgValue) : handler_cell (engine_cell v) = engine_cell v := by
  cases v <;> rfl

theorem handler_row_serialize (r : Row) : handler_row (serialize_row r) = serialize_row r := by
  induction r with
  | nil => rfl
  | cons kv rest ih =>
    simp only [serialize_row, handler_row, List.map_cons] at *
    exact congrArg₂ List.cons (by rw [handler_cell_engine]) ih

theorem serialize_rows_cells (rows : List Row) :
    ∀ r ∈ serialize_rows rows,
      (∀ kv ∈ r, is_temporal kv.2 = false ∧ handler_cell kv.2 = kv.2)
      ∧ handler_row r = r := by
  intro r hr
  simp only [serialize_rows, List.mem_map] at hr
  obtain ⟨r0, _, rfl⟩ := hr
  refine ⟨?_, handler_row_serialize r0⟩
  intro kv hkv
  simp only [serialize_row, List.mem_map] at hkv
  obtain ⟨kv0, _, rfl⟩ := hkv
  exact ⟨engine_cell_not_temporal _, handler_cell_engine _⟩

theorem parse_preserves_id (raw : RawRequest) (req : ParsedRequest)
    (h : parseEnvelope raw = some req) : req.id = raw.id := by
  unfold parseEnvelope at h
  split at h
  · split at h
    · split at h
      · injection h with h1
        rw [← h1]
      · exact absurd h (by simp)
    · exact absurd h (by simp)
  · exact absurd h (by simp)

/-! ## Claims -/

/-- C6: the claim says concurrent first use performs pool initialisation
exactly once (a second concurrent caller waits for the in-flight
initialisation).  The source has no single-flight guard: in the schedule
below each coroutine passes the `current_service is None` check and enters
`initialize_pool` before either has assigned the global, so two full
pool-initialisation sequences run (`initCount = 2`), contradicting the
claim's "exactly once". -/
theorem concurrent_first_use_double_init :
    runSched [true, true, false, false, true, true, false, false] raceStart
      = { currentService := true, initCount := 2, pcA := 4, pcB := 4 } := by
  decide

/-- C9: for every string `s`, the echo tool returns a single text content
equal to `"Echo: " ++ s` with `isError = false` and touches nothing else;
and the scenario envelope of the spec yields exactly the specified
response. -/
theorem echo_tool_output :
    (∀ (w : DbWorld) (g : GlobalState) (s : String) (q : Option String)
        (pr : Option (List String)) (tn sc : Option String),
      handle_tools_call w g (some ⟨some "echo", ⟨some s, q, pr, tn, sc⟩⟩)
        = (.ok { content := [textItem ("Echo: " ++ s)], isError := false }, g, []))
    ∧ (∀ (w : DbWorld) (g : GlobalState),
      process_jsonrpc_request w g echoRaw
        = ({ jsonrpc := "2.0", id := some (.num 1),
             result := some (.toolResult
               { content := [textItem "Echo: hi"], isError := false }) }, g, [])) := by
  constructor
  · intro w g s q pr tn sc
    rfl
  · intro w g
    rfl

/-- C2 counterexample: a `postgres_query` call with a whitespace-only query,
arriving while the service global is unset, does return the isError result
whose text is "Error: Query cannot be empty" (note the "Error: " prefix), but
the database IS contacted first: the handler obtains the service before the
empty-query check, which initialises the pool, acquires a connection and runs
the connection-test query. -/
theorem postgres_query_empty_contacts_db :
    (handle_tools_call okWorld gStart
        (some ⟨some "postgres_query", ⟨none, some "   ", none, none, none⟩⟩))
      = (.ok { content := [textItem "Error: Query cannot be empty"], isError := true },
         { currentService := true, svc := { poolExists := true } },
         [DbEvent.poolInit, DbEvent.acquire, DbEvent.runQuery versionSql])
    ∧ DbEvent.poolInit ∈
        (handle_tools_call okWorld gStart
          (some ⟨some "postgres_query", ⟨none, some "   ", none, none, none⟩⟩)).2.2 := by
  exact ⟨rfl, by decide⟩

/-- C3 counterexample: a valid `tools/call` envelope with no params object
makes dispatch raise a non-ValueError exception (AttributeError, message
naming NoneType and `get`), and the resulting error response carries the
fixed text "Internal server error", not the exception's message — refuting
the claim that the message always equals the exception's own message. -/
theorem internal_error_hides_exception_message :
    (dispatch_request okWorld gStart "tools/call" none).1
        = .error (.otherError noneTypeGetMsg)
    ∧ (process_jsonrpc_request okWorld gStart rawNoParams).1.error
        = some { code := INTERNAL_ERROR, message := "Internal server error" }
    ∧ "Internal server error" ≠ noneTypeGetMsg := by
  refine ⟨rfl, rfl, ?_⟩
  decide

/-- C8 counterexample: a non-SELECT statement whose status tag is a single
space (truthy, but containing no token) makes `result.split()[-1]` raise
IndexError, so the whole call returns a failed result (`success = false`,
no `affected_rows` sentinel) — refuting the claim that an unparsable status
tag yields a sentinel rather than failing the call. -/
theorem status_tag_whitespace_fails_call :
    (execute_query wsTagWorld { poolExists := true } "UPDATE t SET x = 1" []).1
      = qfail "list index out of range" "UPDATE t SET x = 1"
    ∧ (execute_query wsTagWorld { poolExists := true } "UPDATE t SET x = 1" []).1.success
      = false
    ∧ (execute_query wsTagWorld { poolExists := true } "UPDATE t SET x = 1" []).1.affected_rows
      = none := by
  decide

/-- C1: every response to a request that parses into a valid envelope and
carries an id echoes that id unchanged — same JSON type and value — on the
success path and on both error paths (which read the id back out of the raw
request). -/
theorem jsonrpc_response_echoes_id (w : DbWorld) (g : GlobalState)
    (raw : RawRequest) (req : ParsedRequest) (v : JVal)
    (hparse : parseEnvelope raw = some req) (hid : raw.id = some v) :
    (process_jsonrpc_request w g raw).1.id = some v := by
  have hreq : req.id = some v := by
    rw [parse_preserves_id raw req hparse, hid]
  simp only [process_jsonrpc_request, hparse]
  split
  · simp [create_success_response, hreq]
  · simp [create_error_response, hid]
  · simp [create_error_response, hid]

/-- C1 witness: the theorem at the concrete echo scenario request. -/
theorem jsonrpc_response_echoes_id_witness :
    parseEnvelope echoRaw = some ⟨"tools/call", echoRaw.params, some (.num 1)⟩
    ∧ echoRaw.id = some (.num 1)
    ∧ (process_jsonrpc_request okWorld gReady echoRaw).1.id = some (.num 1) :=
  ⟨rfl, rfl,
   jsonrpc_response_echoes_id okWorld gReady echoRaw
     ⟨"tools/call", echoRaw.params, some (.num 1)⟩ (.num 1) rfl rfl⟩

/-- C3 (amended): an exception escaping dispatch is mapped by category —
ValueError (unknown method / unknown tool) to METHOD_NOT_FOUND carrying the
exception's message, any other exception to INTERNAL_ERROR carrying the fixed
text "Internal server error" (not the exception's message). -/
theorem dispatch_error_codes (w : DbWorld) (g : GlobalState)
    (raw : RawRequest) (req : ParsedRequest) (exc : PyExc)
    (hparse : parseEnvelope raw = some req)
    (hd : (dispatch_request w g req.method req.params).1 = .error exc) :
    (process_jsonrpc_request w g raw).1.error
      = some (match exc with
          | .valueError m => { code := METHOD_NOT_FOUND, message := m }
          | .otherError _ => { code := INTERNAL_ERROR, message := "Internal server error" }) := by
  cases exc with
  | valueError m =>
    simp only [process_jsonrpc_request, hparse, hd]
    simp [create_error_response]
  | otherError m =>
    simp only [process_jsonrpc_request, hparse, hd]
    simp [create_error_response]

/-- An unknown-method request used by the C3 witness. -/
def bogusRaw : RawRequest :=
  { jsonrpc := some (.str "2.0"), method := some (.str "bogus"),
    params := none, id := some (.str "a") }

/-- C3 witness: the theorem at the unknown-method request of the spec's
scenario (`method: "bogus"` → error code -32601 with the exception's
message). -/
theorem dispatch_error_codes_witness :
    parseEnvelope bogusRaw = some ⟨"bogus", none, some (.str "a")⟩
    ∧ (dispatch_request okWorld gReady "bogus" none).1
        = .error (.valueError "Method not found: bogus")
    ∧ (process_jsonrpc_request okWorld gReady bogusRaw).1.error
        = some { code := METHOD_NOT_FOUND, message := "Method not found: bogus" } :=
  ⟨rfl, rfl,
   dispatch_error_codes okWorld gReady bogusRaw ⟨"bogus", none, some (.str "a")⟩
     (.valueError "Method not found: bogus") rfl rfl⟩

/-- C10: for every tool name outside the six declared tools, the handler
raises the unknown-tool ValueError with exactly the message
`Unknown tool: <name>`, the global state is untouched and the event trace is
empty: no pool initialisation, no connection, no query. -/
theorem unknown_tool_raises_before_db (w : DbWorld) (g : GlobalState)
    (name : String) (args : ToolArguments) (h : name ∉ toolNames) :
    handle_tools_call w g (some ⟨some name, args⟩)
      = (.error (.valueError ("Unknown tool: " ++ name)), g, []) := by
  have h1 : ¬ ((some name : Option String) = some "echo") := by
    intro he
    apply h
    have : name = "echo" := by injection he
    rw [this]
    simp [toolNames]
  have h2 : toolNameMem (some name) = false := by
    cases hmem : valid_postgres_tools.contains name with
    | false =>
      simp only [toolNameMem]
      exact hmem
    | true =>
      exfalso
      apply h
      have hm : name ∈ valid_postgres_tools := List.elem_iff.mp hmem
      simp [valid_postgres_tools] at hm
      simp [toolNames]
      tauto
  simp [handle_tools_call, h1, h2, displayToolName]

/-- C10 witness: the theorem at the concrete unknown tool name `bogus`. -/
theorem unknown_tool_raises_before_db_witness :
    "bogus" ∉ toolNames
    ∧ handle_tools_call okWorld gStart (some ⟨some "bogus", ⟨none, none, none, none, none⟩⟩)
        = (.error (.valueError "Unknown tool: bogus"), gStart, []) :=
  ⟨by decide,
   unknown_tool_raises_before_db okWorld gStart "bogus" ⟨none, none, none, none, none⟩
     (by decide)⟩

/-- C7: when the pool is live and the `pg_tables` lookup finds no row (the
table does not exist), `get_table_info` returns the structured not-found
failure naming the table, and the event trace shows only the lookup — the
column, index and row-count queries are never issued; the embedding is a
total function, so no exception escapes the handler. -/
theorem table_info_not_found_no_partial (w : DbWorld) (st : SvcState)
    (tbl sch : String)
    (hpool : st.poolExists = true)
    (hlook : w.tableLookup sch tbl = .ok none) :
    get_table_info w st tbl sch
      = (tfail ("Table " ++ sch ++ "." ++ tbl ++ " not found"), st,
         [DbEvent.acquire, DbEvent.runQuery tableInfoSql]) := by
  simp [get_table_info, hpool, hlook]

/-- C7 witness: the theorem at a concrete missing table. -/
theorem table_info_not_found_no_partial_witness :
    ({ poolExists := true } : SvcState).poolExists = true
    ∧ okWorld.tableLookup "public" "missing" = .ok none
    ∧ get_table_info okWorld { poolExists := true } "missing" "public"
        = (tfail "Table public.missing not found", { poolExists := true },
           [DbEvent.acquire, DbEvent.runQuery tableInfoSql]) :=
  ⟨rfl, rfl,
   table_info_not_found_no_partial okWorld { poolExists := true } "missing" "public" rfl rfl⟩

/-- C2 (amended): a `postgres_query` call whose query is empty or whitespace
only returns the isError result whose text is "Error: Query cannot be empty"
and `execute_query` is never invoked (the user's query is never sent to the
database) — but the rejection happens only after the handler has obtained the
PostgreSQL service, so the call's database events are exactly those of
`get_postgres_service` (pool initialisation plus connection test on first
use; none on a warm process). -/
theorem postgres_query_empty_rejected_before_execute
    (w : DbWorld) (g : GlobalState) (args : ToolArguments)
    (hsvc : (get_postgres_service w g).1 = .ok ())
    (hq : pyStrip (args.query.getD "") = "") :
    handle_tools_call w g (some ⟨some "postgres_query", args⟩)
      = (.ok { content := [textItem "Error: Query cannot be empty"], isError := true },
         (get_postgres_service w g).2.1, (get_postgres_service w g).2.2) := by
  have e1 : ¬ ((some "postgres_query" : Option String) = some "echo") := by decide
  have e2 : toolNameMem (some "postgres_query") = true := rfl
  have e3 : ¬ ((some "postgres_query" : Option String) = some "postgres_connection_test") := by
    decide
  rcases hs : get_postgres_service w g with ⟨sr, g1, ev1⟩
  rw [hs] at hsvc
  simp only [Prod.fst] at hsvc
  subst hsvc
  simp [handle_tools_call, hs, e1, e2, e3, hq]

/-- C2 witness: the amended theorem at a warm process and an empty query. -/
theorem postgres_query_empty_rejected_before_execute_witness :
    (get_postgres_service okWorld gReady).1 = .ok ()
    ∧ pyStrip ((⟨none, some "", none, none, none⟩ : ToolArguments).query.getD "") = ""
    ∧ handle_tools_call okWorld gReady
        (some ⟨some "postgres_query", ⟨none, some "", none, none, none⟩⟩)
      = (.ok { content := [textItem "Error: Query cannot be empty"], isError := true },
         (get_postgres_service okWorld gReady).2.1,
         (get_postgres_service okWorld gReady).2.2) :=
  ⟨rfl, rfl,
   postgres_query_empty_rejected_before_execute okWorld gReady
     ⟨none, some "", none, none, none⟩ rfl rfl⟩

theorem run_query_conn_select (w : DbWorld) (st : SvcState) (q : String)
    (ps : List String) (ev : List DbEvent)
    (hs : (run_query_conn w st q ps ev).1.success = true)
    (ht : (run_query_conn w st q ps ev).1.query_type = some "SELECT") :
    ∃ rows, w.fetchResult q ps = .ok rows
      ∧ (run_query_conn w st q ps ev).1.data = some (serialize_rows rows) := by
  rcases hh : (pySplitWs (pyUpper (pyStrip q))).head? with _ | qt
  · exfalso
    simp [run_query_conn, hh, qfail] at hs
  · by_cases hqt : qt = "SELECT"
    · subst hqt
      cases hf : w.fetchResult q ps with
      | error m =>
        exfalso
        simp [run_query_conn, hh, hf, qfail] at hs
      | ok rows =>
        exact ⟨rows, rfl, by simp [run_query_conn, hh, hf]⟩
    · exfalso
      cases he : w.execResult q ps with
      | error m =>
        simp [run_query_conn, hh, hqt, he, qfail] at ht
      | ok tag =>
        by_cases htag : tag = ""
        · simp [run_query_conn, hh, hqt, he, htag] at ht
        · rcases hl : (pySplitWs tag).getLast? with _ | tok
          · simp [run_query_conn, hh, hqt, he, htag, hl, qfail] at ht
          · simp [run_query_conn, hh, hqt, he, htag, hl] at ht

/-- C4: every successful SELECT result of `execute_query` is exactly the
fetched native rows passed cell-wise through the engine-boundary temporal
conversion; in the output no temporal value remains (the conversion already
happened, exactly once) and the downstream conversion in `handle_tools_call`
is the identity on it (it never converts a second time). -/
theorem select_serializes_temporals_once (w : DbWorld) (st : SvcState)
    (q : String) (ps : List String)
    (hs : (execute_query w st q ps).1.success = true)
    (ht : (execute_query w st q ps).1.query_type = some "SELECT") :
    ∃ rows, w.fetchResult q ps = .ok rows
      ∧ (execute_query w st q ps).1.data = some (serialize_rows rows)
      ∧ (∀ r ∈ serialize_rows rows,
          (∀ kv ∈ r, is_temporal kv.2 = false ∧ handler_cell kv.2 = kv.2)
          ∧ handler_row r = r) := by
  cases hp : st.poolExists with
  | true =>
    have h1 : execute_query w st q ps = run_query_conn w st q ps [] := by
      simp [execute_query, hp]
    rw [h1] at hs ht
    obtain ⟨rows, hf, hd⟩ := run_query_conn_select w st q ps [] hs ht
    exact ⟨rows, hf, by rw [h1]; exact hd, serialize_rows_cells rows⟩
  | false =>
    by_cases hc : w.poolCreateOk
    · have h1 : execute_query w st q ps
          = run_query_conn w { poolExists := true } q ps [DbEvent.poolInit] := by
        simp [execute_query, hp, init_pool, hc]
      rw [h1] at hs ht
      obtain ⟨rows, hf, hd⟩ := run_query_conn_select w { poolExists := true } q ps _ hs ht
      exact ⟨rows, hf, by rw [h1]; exact hd, serialize_rows_cells rows⟩
    · exfalso
      simp [execute_query, hp, init_pool, hc, qfail] at hs

/-- A database returning one row with a date column and an int column. -/
def dateWorld : DbWorld :=
  { okWorld with
    fetchResult := fun _ _ => .ok [[("d", .vDate "2024-01-02"), ("n", .vInt 5)]] }

/-- C4 witness: the theorem at a concrete SELECT returning a date value. -/
theorem select_serializes_temporals_once_witness :
    (execute_query dateWorld { poolExists := true } "SELECT d, n FROM t" []).1.success = true
    ∧ (execute_query dateWorld { poolExists := true } "SELECT d, n FROM t" []).1.query_type
        = some "SELECT"
    ∧ ∃ rows, dateWorld.fetchResult "SELECT d, n FROM t" [] = .ok rows
        ∧ (execute_query dateWorld { poolExists := true } "SELECT d, n FROM t" []).1.data
            = some (serialize_rows rows)
        ∧ (∀ r ∈ serialize_rows rows,
            (∀ kv ∈ r, is_temporal kv.2 = false ∧ handler_cell kv.2 = kv.2)
            ∧ handler_row r = r) :=
  ⟨rfl, rfl,
   select_serializes_temporals_once dateWorld { poolExists := true }
     "SELECT d, n FROM t" [] rfl rfl⟩

theorem run_query_conn_failure_shape (w : DbWorld) (st : SvcState) (q : String)
    (ps : List String) (ev : List DbEvent) :
    (run_query_conn w st q ps ev).1.success = true
    ∨ ((run_query_conn w st q ps ev).1.success = false
       ∧ (run_query_conn w st q ps ev).1.query = some q
       ∧ ∃ m, (run_query_conn w st q ps ev).1.error = some m) := by
  rcases hh : (pySplitWs (pyUpper (pyStrip q))).head? with _ | qt
  · right
    simp [run_query_conn, hh, qfail]
  · by_cases hqt : qt = "SELECT"
    · cases hf : w.fetchResult q ps with
      | error m =>
        right
        simp [run_query_conn, hh, hqt, hf, qfail]
      | ok rows =>
        left
        simp [run_query_conn, hh, hqt, hf]
    · cases he : w.execResult q ps with
      | error m =>
        right
        simp [run_query_conn, hh, hqt, he, qfail]
      | ok tag =>
        by_cases htag : tag = ""
        · left
          simp [run_query_conn, hh, hqt, he, htag]
        · rcases hl : (pySplitWs tag).getLast? with _ | tok
          · right
            simp [run_query_conn, hh, hqt, he, htag, hl, qfail]
          · left
            simp [run_query_conn, hh, hqt, he, htag, hl]

/-- C5: `execute_query` is a total function of the query, the parameters and
the database's behaviour — no exception escapes the service boundary — and
whenever it does not succeed (pool-initialisation failure, classifier
IndexError, or any database-level raise on fetch/execute) the result carries
the original SQL text and an error message. -/
theorem execute_query_failure_shape (w : DbWorld) (st : SvcState) (q : String)
    (ps : List String) :
    (execute_query w st q ps).1.success = true
    ∨ ((execute_query w st q ps).1.success = false
       ∧ (execute_query w st q ps).1.query = some q
       ∧ ∃ m, (execute_query w st q ps).1.error = some m) := by
  cases hp : st.poolExists with
  | true =>
    have h1 : execute_query w st q ps = run_query_conn w st q ps [] := by
      simp [execute_query, hp]
    rw [h1]
    exact run_query_conn_failure_shape w st q ps []
  | false =>
    by_cases hc : w.poolCreateOk
    · have h1 : execute_query w st q ps
          = run_query_conn w { poolExists := true } q ps [DbEvent.poolInit] := by
        simp [execute_query, hp, init_pool, hc]
      rw [h1]
      exact run_query_conn_failure_shape w { poolExists := true } q ps _
    · right
      simp [execute_query, hp, init_pool, hc, qfail]

/-- C8 (amended): for a non-SELECT statement whose execution succeeds with
status tag `tag`, the result's message embeds the tag; the affected-rows
field is the sentinel "0" when the tag is empty (falsy), otherwise the last
whitespace-delimited token of the tag, whether or not that token is a number;
and when the tag is non-empty but contains no token (whitespace only) the
whole call returns a failed result instead of a sentinel. -/
theorem non_select_affected_rows (w : DbWorld) (st : SvcState)
    (q : String) (ps : List String) (qt tag : String)
    (hpool : st.poolExists = true)
    (hhead : (pySplitWs (pyUpper (pyStrip q))).head? = some qt)
    (hqt : qt ≠ "SELECT")
    (hexec : w.execResult q ps = .ok tag) :
    (tag = "" →
      (execute_query w st q ps).1
        = { success := true, query_type := some qt, affected_rows := some "0",
            message := some ("Query executed successfully: " ++ tag) })
    ∧ (∀ tok, (pySplitWs tag).getLast? = some tok →
      (execute_query w st q ps).1
        = { success := true, query_type := some qt, affected_rows := some tok,
            message := some ("Query executed successfully: " ++ tag) })
    ∧ (tag ≠ "" → (pySplitWs tag).getLast? = none →
      (execute_query w st q ps).1 = qfail "list index out of range" q) := by
  have h1 : execute_query w st q ps = run_query_conn w st q ps [] := by
    simp [execute_query, hpool]
  refine ⟨?_, ?_, ?_⟩
  · intro htag
    rw [h1]
    simp [run_query_conn, hhead, hqt, hexec, htag]
  · intro tok hl
    rw [h1]
    by_cases htag : tag = ""
    · exfalso
      rw [htag] at hl
      have hnil : pySplitWs "" = [] := rfl
      rw [hnil] at hl
      simp at hl
    · simp [run_query_conn, hhead, hqt, hexec, htag, hl]
  · intro htag hl
    rw [h1]
    simp [run_query_conn, hhead, hqt, hexec, htag, hl]

/-- A database whose non-SELECT status tag is "DELETE 4". -/
def delWorld : DbWorld := { okWorld with execResult := fun _ _ => .ok "DELETE 4" }

/-- C8 witness: the amended theorem at a concrete DELETE whose status tag is
"DELETE 4" (affected-rows token "4"). -/
theorem non_select_affected_rows_witness :
    ({ poolExists := true } : SvcState).poolExists = true
    ∧ (pySplitWs (pyUpper (pyStrip "DELETE FROM t"))).head? = some "DELETE"
    ∧ "DELETE" ≠ "SELECT"
    ∧ delWorld.execResult "DELETE FROM t" [] = .ok "DELETE 4"
    ∧ (execute_query delWorld { poolExists := true } "DELETE FROM t" []).1
        = { success := true, query_type := some "DELETE", affected_rows := some "4",
            message := some "Query executed successfully: DELETE 4" } :=
  ⟨rfl, rfl, by decide, rfl,
   (non_select_affected_rows delWorld { poolExists := true } "DELETE FROM t" []
     "DELETE" "DELETE 4" rfl rfl (by decide) rfl).2.1 "4" rfl⟩

end PgMcp
